import Mathlib

/-!
Verification development for the control plane of the feldera streaming-SQL
pipeline service.  The definitions below shallowly embed the data model and
the operations exercised by the repository:

* `crates/pipeline_manager/src/bin/pipeline-manager.rs` (`main`) is embedded
  as `mainManager`, with the externally observable steps recorded as a list
  of `ManagerAction`s.
* the REST/store behaviour (programs, pipelines, connectors, guarded status
  writes, deletes) is modelled from the specification, with the HTTP status
  codes pinned by the assertions of
  `crates/pipeline_manager/src/integration_test.rs`.
* ingress parsing (JSON array mode vs newline-delimited mode, CSV) and the
  quantiles egress snapshot are modelled from the specification and the
  concrete expected strings of the integration tests.
-/

/-! ## Data model (spec section 3, shapes also visible in integration_test.rs) -/

/-- Program compilation status, spec section 3 and the status strings polled
by `TestConfig::compile` in integration_test.rs (Pending, CompilingSql,
CompilingRust, Success, ...). -/
inductive ProgramStatus where
  | noStatus
  | pending
  | compilingSql
  | compilingRust
  | success
  | sqlError
  | rustError
  | systemError
deriving DecidableEq, Repr

/-- Pipeline lifecycle status, spec section 4.3 and `db::PipelineStatus`
used by the integration tests. -/
inductive PipelineStatus where
  | Shutdown
  | Provisioning
  | Initializing
  | Paused
  | Running
  | ShuttingDown
  | Failed
deriving DecidableEq, Repr

/-- Structured error attached to a pipeline, as read by
`pipeline.state.error.error_code` in integration_test.rs. -/
structure ErrorInfo where
  error_code : String
deriving DecidableEq, Repr

/-- A program row: id, name, description, SQL code, monotonic version,
compilation status, derived schema (spec section 3). -/
structure ProgramRec where
  program_id : Nat
  name : String
  description : String
  code : String
  version : Nat
  status : ProgramStatus
  schema : Option String
deriving DecidableEq, Repr

/-- A pipeline row (spec section 3): may reference at most one program. -/
structure PipelineRec where
  pipeline_id : Nat
  name : String
  description : String
  program_id : Option Nat
  version : Nat
  current_status : PipelineStatus
  desired_status : PipelineStatus
  error : Option ErrorInfo
deriving DecidableEq, Repr

/-- A connector row (spec section 3). -/
structure ConnectorRec where
  connector_id : Nat
  name : String
  description : String
  config : String
deriving DecidableEq, Repr

/-- The durable store: single source of truth for programs, pipelines and
connectors (spec section 4.1). -/
structure Store where
  programs : List ProgramRec
  pipelines : List PipelineRec
  connectors : List ConnectorRec
deriving DecidableEq, Repr

def emptyStore : Store := { programs := [], pipelines := [], connectors := [] }

/-! ## Store operations (spec section 4.1; HTTP codes from spec section 6
and the integration-test assertions) -/

/-- Modelled from the spec: `get_program` — look a program up by id
(the database layer is not under src/). -/
def getProgram (st : Store) (pid : Nat) : Option ProgramRec :=
  st.programs.find? (fun p => p.program_id == pid)

/-- Modelled from the spec: `get_pipeline` — look a pipeline up by id. -/
def getPipeline (st : Store) (plid : Nat) : Option PipelineRec :=
  st.pipelines.find? (fun p => p.pipeline_id == plid)

/-- HTTP status of `GET /v0/programs/{id}`: 200 when the row exists, 404
otherwise (spec sections 4.5 and 7; asserted at integration_test.rs lines
607-608 and 793-794). -/
def getProgramHttpStatus (st : Store) (pid : Nat) : Nat :=
  match getProgram st pid with
  | some _ => 200
  | none => 404

/-- HTTP status of `GET /v0/pipelines/{id}` (asserted at
integration_test.rs lines 786-787 and 796-797). -/
def getPipelineHttpStatus (st : Store) (plid : Nat) : Nat :=
  match getPipeline st plid with
  | some _ => 200
  | none => 404

/-- Modelled from the spec: `set_program_status_guarded(program_id,
expected_version, new_status, schema?)` — no-op if `expected_version`
differs from the stored version; the Boolean result indicates whether the
write landed (spec section 4.1; the database layer is not under src/). -/
def set_program_status_guarded (st : Store) (pid : Nat) (expected_version : Nat)
    (new_status : ProgramStatus) (schema : Option String) : Bool × Store :=
  match getProgram st pid with
  | none => (false, st)
  | some p =>
    if p.version = expected_version then
      (true,
       { st with
         programs := st.programs.map (fun q =>
           if q.program_id == pid then
             { q with
               status := new_status
               schema := match schema with
                 | some s => some s
                 | none => q.schema }
           else q) })
    else (false, st)

/-- Modelled from the spec: `update_program` — an edit that changes `code`
bumps `version` and resets `status` (spec sections 3 and 4.1). -/
def update_program (st : Store) (pid : Nat) (newCode : String) : Store :=
  { st with
    programs := st.programs.map (fun q =>
      if q.program_id == pid then
        if q.code = newCode then q
        else
          { q with
            code := newCode
            version := q.version + 1
            status := ProgramStatus.noStatus
            schema := none }
      else q) }

/-- Events that race on a program row: user edits (REST) and compile
results (compile scheduler), spec sections 4.2 and 5. -/
inductive StoreEvent where
  | userEdit (pid : Nat) (newCode : String)
  | compileResult (pid : Nat) (expected_version : Nat)
      (s : ProgramStatus) (schema : Option String)

/-- One store transition: edits go through `update_program`, compile
results go through the guarded write. -/
def stepStore (st : Store) (e : StoreEvent) : Store :=
  match e with
  | .userEdit pid c => update_program st pid c
  | .compileResult pid v s sch => (set_program_status_guarded st pid v s sch).2

/-- An arbitrary interleaving of edits and compile results. -/
def runStore (st : Store) (es : List StoreEvent) : Store :=
  es.foldl stepStore st

/-- Modelled from the spec: `DELETE /v0/pipelines/{id}` — allowed only when
`current_status = shutdown` (spec sections 4.5 and 8 property 3; the REST
handler is not under src/; `cleanup` in integration_test.rs asserts 200
after waiting for Shutdown). -/
def delete_pipeline (st : Store) (plid : Nat) : Nat × Store :=
  match getPipeline st plid with
  | none => (404, st)
  | some p =>
    if p.current_status = PipelineStatus.Shutdown then
      (200, { st with pipelines := st.pipelines.filter (fun q => q.pipeline_id != plid) })
    else (400, st)

/-- Modelled from the spec: `DELETE /v0/programs/{id}` — deleting a program
referenced by a pipeline is rejected with 400 (spec sections 3 invariant 5,
4.5 and 8 property 5; asserted at integration_test.rs lines 790-791). -/
def delete_program (st : Store) (pid : Nat) : Nat × Store :=
  match getProgram st pid with
  | none => (404, st)
  | some _ =>
    if st.pipelines.any (fun q => q.program_id == some pid) then (400, st)
    else (200, { st with programs := st.programs.filter (fun q => q.program_id != pid) })

/-- Request body of `POST /v0/programs` (integration_test.rs lines 594-598). -/
structure NewProgramRequest where
  name : String
  description : String
  code : String
deriving DecidableEq, Repr

/-- Request body of `POST /v0/pipelines` (integration_test.rs lines 775-781). -/
structure NewPipelineRequest where
  name : String
  description : String
  program_id : Option Nat
deriving DecidableEq, Repr

/-- Request body of `POST /v0/connectors`. -/
structure NewConnectorRequest where
  name : String
  description : String
  config : String
deriving DecidableEq, Repr

/-- `POST /v0/programs`: name conflict gives 409, success gives 201 Created
(integration_test.rs lines 599-600, 620-621 and 629-630; spec section 4.5).
A fresh program starts at version 1 with no status. -/
def create_program (st : Store) (r : NewProgramRequest) (newId : Nat) : Nat × Store :=
  if st.programs.any (fun p => p.name == r.name) then (409, st)
  else
    (201,
     { st with
       programs := st.programs ++
         [{ program_id := newId, name := r.name, description := r.description,
            code := r.code, version := 1, status := ProgramStatus.noStatus,
            schema := none }] })

/-- `POST /v0/pipelines`: success gives 200 OK — this is the status the
integration tests assert (`assert_eq!(StatusCode::OK, req.status())` at
integration_test.rs line 783 and `assert_eq!(resp.status(), StatusCode::OK)`
at line 1355), not 201. A fresh pipeline starts shut down. -/
def create_pipeline (st : Store) (r : NewPipelineRequest) (newId : Nat) : Nat × Store :=
  if st.pipelines.any (fun p => p.name == r.name) then (409, st)
  else
    (200,
     { st with
       pipelines := st.pipelines ++
         [{ pipeline_id := newId, name := r.name, description := r.description,
            program_id := r.program_id, version := 1,
            current_status := PipelineStatus.Shutdown,
            desired_status := PipelineStatus.Shutdown, error := none }] })

/-- Modelled from the spec: `POST /v0/connectors` — connector CRUD mirrors
programs (spec sections 4.1 and 4.5; no connector creation appears under
src/), so success gives 201. -/
def create_connector (st : Store) (r : NewConnectorRequest) (newId : Nat) : Nat × Store :=
  if st.connectors.any (fun p => p.name == r.name) then (409, st)
  else
    (201,
     { st with
       connectors := st.connectors ++
         [{ connector_id := newId, name := r.name, description := r.description,
            config := r.config }] })

/-! ## Ingress (spec sections 4.4, 7 and 8 property 6; concrete behaviour
pinned by `json_ingress` in integration_test.rs) -/

/-- An update carried by one ingress record in `insert_delete` format. -/
inductive RowUpdate (A : Type) where
  | insertRow (a : A)
  | deleteRow (a : A)
deriving DecidableEq, Repr

/-- The parse outcome of one ingress record: either a well-formed update or
a malformed record (with the offending input fragment). -/
inductive ParsedEvent (A : Type) where
  | ok (u : RowUpdate A)
  | malformed (fragment : String)
deriving DecidableEq, Repr

/-- Number of malformed records in an ingress payload. -/
def numParseErrors {A : Type} (evs : List (ParsedEvent A)) : Nat :=
  (evs.filter (fun e =>
    match e with
    | .malformed _ => true
    | .ok _ => false)).length

/-- The well-formed updates of an ingress payload, in payload order. -/
def validUpdates {A : Type} (evs : List (ParsedEvent A)) : List (RowUpdate A) :=
  evs.filterMap (fun e =>
    match e with
    | .ok u => some u
    | .malformed _ => none)

/-- Apply one update to the table contents: an insert appends the row, a
delete removes one occurrence of it. -/
def applyUpdate {A : Type} [DecidableEq A] (st : List A) : RowUpdate A → List A
  | .insertRow a => st ++ [a]
  | .deleteRow a => st.erase a

/-- Apply a list of updates in order. -/
def applyUpdates {A : Type} [DecidableEq A] (st : List A) (us : List (RowUpdate A)) : List A :=
  us.foldl applyUpdate st

/-- Body of a (possibly failing) ingress HTTP response: status code, the
`error_code` field and `details.num_errors` (the error envelope asserted at
integration_test.rs lines 904 and 923). -/
structure IngressResponse where
  status : Nat
  error_code : Option String
  num_errors : Nat
deriving DecidableEq, Repr

/-- Modelled from the spec: ingress in array mode
(`format=json&...&array=true`) — the whole payload is parsed first; if any
record is malformed the request fails with 400 `ParseErrors` and nothing at
all is ingested (spec section 8 property 6; the pipeline runtime parser is
not under src/; behaviour asserted at integration_test.rs lines 891-909). -/
def ingressArrayMode {A : Type} [DecidableEq A] (st : List A)
    (evs : List (ParsedEvent A)) : IngressResponse × List A :=
  let n := numParseErrors evs
  if n = 0 then
    ({ status := 200, error_code := none, num_errors := 0 },
     applyUpdates st (validUpdates evs))
  else
    ({ status := 400, error_code := some "ParseErrors", num_errors := n }, st)

/-- Modelled from the spec: ingress in newline-delimited mode (JSON without
`array=true`, or CSV) — records are parsed and fed one by one, so the
well-formed records are ingested even when the request as a whole fails
with 400 `ParseErrors` (spec section 8 property 6 and open question (b);
behaviour asserted at integration_test.rs lines 911-928 and 949-968). -/
def ingressNewlineMode {A : Type} [DecidableEq A] (st : List A)
    (evs : List (ParsedEvent A)) : IngressResponse × List A :=
  let n := numParseErrors evs
  ((if n = 0 then { status := 200, error_code := none, num_errors := 0 }
    else { status := 400, error_code := some "ParseErrors", num_errors := n }),
   applyUpdates st (validUpdates evs))

/-! ## CSV ingress bodies and the quantiles snapshot (scenario S3;
`deploy_pipeline` in integration_test.rs lines 655-686) -/

/-- Split a character stream at every line-feed character. -/
def splitLinesAux : List Char → List Char → List (List Char)
  | [], acc => [acc.reverse]
  | c :: cs, acc =>
    if c = '\n' then acc.reverse :: splitLinesAux cs []
    else splitLinesAux cs (c :: acc)

/-- Split a string into lines at line-feed characters. -/
def splitLines (s : String) : List (List Char) :=
  splitLinesAux s.data []

/-- Drop a trailing carriage return, so Windows-style line endings parse
like Unix ones. -/
def stripCR (cs : List Char) : List Char :=
  match cs.reverse with
  | '\r' :: rest => rest.reverse
  | _ => cs

/-- Modelled from the spec: the CSV reader's record boundaries — records
are separated by newlines (either style) and the final record needs no
terminator (scenario S3 ingests both a newline-terminated body and the body
"4\r\n5\r\n6"; the runtime CSV parser is not under src/). -/
def csvRecordLines (body : String) : List (List Char) :=
  let ls := (splitLines body).map stripCR
  match ls.getLast? with
  | some [] => ls.dropLast
  | _ => ls

/-- Value of a decimal digit character, if it is one. -/
def digitVal (c : Char) : Option Nat :=
  if '0' ≤ c ∧ c ≤ '9' then some (c.toNat - '0'.toNat) else none

/-- Accumulate decimal digits into a number; any non-digit fails. -/
def parseNatAux : List Char → Nat → Option Nat
  | [], acc => some acc
  | c :: cs, acc =>
    match digitVal c with
    | some d => parseNatAux cs (acc * 10 + d)
    | none => none

/-- Parse one single-column CSV record as a natural number. -/
def parseCsvNat (cs : List Char) : Option Nat :=
  match cs with
  | [] => none
  | _ => parseNatAux cs 0

/-- Turn a CSV body for a one-integer-column table into parse events: each
record either inserts its value or is malformed. -/
def csvEvents (body : String) : List (ParsedEvent Nat) :=
  (csvRecordLines body).map (fun cs =>
    match parseCsvNat cs with
    | some v => ParsedEvent.ok (RowUpdate.insertRow v)
    | none => ParsedEvent.malformed (String.mk cs))

/-- Modelled from the spec: `POST /ingress/T1?format=csv` for the
single-column table of scenario S3 — CSV is a newline-delimited format, so
it uses the newline-mode semantics. -/
def ingestCsv (st : List Nat) (body : String) : IngressResponse × List Nat :=
  ingressNewlineMode st (csvEvents body)

/-- Insert a value into a sorted list, keeping it sorted. -/
def insertSorted (x : Nat) : List Nat → List Nat
  | [] => [x]
  | y :: ys => if x ≤ y then x :: y :: ys else y :: insertSorted x ys

/-- Sort the table contents ascending. -/
def sortNat (l : List Nat) : List Nat :=
  l.foldr insertSorted []

/-- Multiplicity of a value in the table (its z-set weight). -/
def weightOf (l : List Nat) (x : Nat) : Nat :=
  (l.filter (fun y => y == x)).length

/-- Modelled from the spec: the `query=quantiles&format=csv` egress
snapshot — one line per distinct value in ascending order, rendered as
`value,weight` (the expected string of scenario S3 pairs every value with
its weight 1; the runtime egress code is not under src/). -/
def quantilesSnapshotCsv (st : List Nat) : String :=
  String.join (((sortNat st).dedup).map (fun v =>
    Nat.repr v ++ "," ++ Nat.repr (weightOf st v) ++ "\n"))

/-! ## Runner supervisor polling (spec section 4.3; `pipeline_panic` in
integration_test.rs lines 739-748) -/

/-- What the pipeline process answers on `GET /status` (spec section 6):
its state, or a self-reported error with the runtime's error code. -/
inductive RuntimeReport where
  | initializingState
  | pausedState
  | runningState
  | errorReport (code : String)
deriving DecidableEq, Repr

/-- Modelled from the spec: one supervisor poll of a live pipeline (spec
section 4.3; the runner is not under src/) — a pipeline reporting an error
state transitions to `Failed` carrying the runtime's own error code;
otherwise the provisioning/initialisation handshake advances. -/
def supervisorObserve (p : PipelineRec) (r : RuntimeReport) : PipelineRec :=
  match r with
  | .errorReport code =>
    { p with current_status := PipelineStatus.Failed,
             error := some { error_code := code } }
  | .initializingState =>
    if p.current_status = PipelineStatus.Provisioning then
      { p with current_status := PipelineStatus.Initializing }
    else p
  | .pausedState =>
    if p.current_status = PipelineStatus.Initializing then
      { p with current_status := PipelineStatus.Paused }
    else p
  | .runningState => p

/-- The supervisor polls live pipelines every ≈300 ms (spec sections 4.3
and 9). -/
def supervisorPollIntervalMs : Nat := 300

/-- Default failure-detection timeout: 120 s (spec section 5; the
integration tests default TEST_FAILED_TIMEOUT to 120 s). -/
def failedTimeoutMsDefault : Nat := 120000

/-! ## The manager binary (crates/pipeline_manager/src/bin/pipeline-manager.rs) -/

/-- `ApiServerConfig`, fields as constructed in integration_test.rs lines
99-107 (its definition lives in config.rs, outside src/). -/
structure ApiServerConfig where
  port : Nat
  bind_address : String
  api_server_working_directory : String
  auth_provider : String
  dev_mode : Bool
  dump_openapi : Bool
  config_file : Option String
deriving DecidableEq, Repr

/-- `DatabaseConfig`, fields as in integration_test.rs lines 96-98. -/
structure DatabaseConfig where
  db_connection_string : String
deriving DecidableEq, Repr

/-- `CompilerConfig`, fields as in integration_test.rs lines 110-118. -/
structure CompilerConfig where
  compiler_working_directory : String
  sql_compiler_home : String
  dbsp_override_path : String
  debug : Bool
  precompile : Bool
  binary_ref_host : String
  binary_ref_port : Nat
deriving DecidableEq, Repr

/-- `LocalRunnerConfig`, fields as in integration_test.rs lines 121-124. -/
structure LocalRunnerConfig where
  runner_working_directory : String
  pipeline_host : String
deriving DecidableEq, Repr

/-- The result of clap argument parsing: each config section is obtained
from the matches by `from_arg_matches` (pipeline-manager.rs lines 24-29). -/
structure ArgMatches where
  api : ApiServerConfig
  database : DatabaseConfig
  compiler : CompilerConfig
  runner : LocalRunnerConfig
deriving DecidableEq, Repr

/-- The externally observable steps `main` can take, in order
(pipeline-manager.rs lines 34-91). -/
inductive ManagerAction where
  | writeOpenapiJson
  | readApiConfigFile (path : String)
  | precompileDependencies
  | createListener
  | connectDb
  | spawnCompilerTask
  | spawnLocalRunnerTask
  | runApiServer
deriving DecidableEq, Repr

/-- What `main` did and which configuration each long-lived component
received (`none` when the component never ran). -/
structure MainOutcome where
  actions : List ManagerAction
  apiConfigUsed : Option ApiServerConfig
  databaseConfigUsed : Option DatabaseConfig
  compilerConfigUsed : Option CompilerConfig
  runnerConfigUsed : Option LocalRunnerConfig
deriving DecidableEq, Repr

/-- Embedding of `main` in pipeline-manager.rs.  `readFile` models
`std::fs::read` on the config file and `parseYamlApiConfig` models
`serde_yaml::from_str::<ApiServerConfig>`; either failing aborts `main`
with an error (lines 40-48).  `canonicalize` on the config records resolves
filesystem paths (its source is outside src/) and is treated as the
identity on the embedded fields.  Control flow follows the source: the
dump-openapi check (lines 34-38) precedes the config-file read (lines
40-48); the precompile check (lines 59-63) precedes the database-config
parse and the three spawned tasks (lines 64-91). -/
def mainManager (m : ArgMatches) (readFile : String → Option String)
    (parseYamlApiConfig : String → Option ApiServerConfig) :
    Except String MainOutcome :=
  let api_config := m.api
  if api_config.dump_openapi then
    Except.ok
      { actions := [ManagerAction.writeOpenapiJson]
        apiConfigUsed := none, databaseConfigUsed := none
        compilerConfigUsed := none, runnerConfigUsed := none }
  else
    let fileStep : Except String (List ManagerAction × ApiServerConfig) :=
      match api_config.config_file with
      | some f =>
        match readFile f with
        | none => Except.error ("error reading config file " ++ f)
        | some yaml =>
          match parseYamlApiConfig yaml with
          | none => Except.error ("error parsing config file " ++ f)
          | some cfg => Except.ok ([ManagerAction.readApiConfigFile f], cfg)
      | none => Except.ok ([], api_config)
    match fileStep with
    | Except.error e => Except.error e
    | Except.ok (acts, api_config) =>
      let compiler_config := m.compiler
      let local_runner_config := m.runner
      if compiler_config.precompile then
        Except.ok
          { actions := acts ++ [ManagerAction.precompileDependencies]
            apiConfigUsed := some api_config, databaseConfigUsed := none
            compilerConfigUsed := some compiler_config, runnerConfigUsed := none }
      else
        let database_config := m.database
        Except.ok
          { actions := acts ++
              [ManagerAction.createListener, ManagerAction.connectDb,
               ManagerAction.spawnCompilerTask, ManagerAction.spawnLocalRunnerTask,
               ManagerAction.runApiServer]
            apiConfigUsed := some api_config
            databaseConfigUsed := some database_config
            compilerConfigUsed := some compiler_config
            runnerConfigUsed := some local_runner_config }

/-! ## Shared concrete fixtures for witnesses -/

def progW : ProgramRec :=
  { program_id := 1, name := "test", description := "desc",
    code := "create table t1(c1 integer);", version := 2,
    status := ProgramStatus.pending, schema := none }

def pipelineShutdownW : PipelineRec :=
  { pipeline_id := 10, name := "p-one", description := "desc",
    program_id := some 1, version := 1,
    current_status := PipelineStatus.Shutdown,
    desired_status := PipelineStatus.Shutdown, error := none }

def pipelineRunningW : PipelineRec :=
  { pipeline_id := 11, name := "p-two", description := "desc",
    program_id := some 1, version := 1,
    current_status := PipelineStatus.Running,
    desired_status := PipelineStatus.Running, error := none }

def storeW : Store :=
  { programs := [progW], pipelines := [pipelineShutdownW, pipelineRunningW],
    connectors := [] }

/-- If a member of the list satisfies the search predicate, `find?` finds
some element. -/
theorem find?_eq_some_of_mem {A : Type} (q : A → Bool) :
    ∀ (l : List A) (a : A), a ∈ l → q a = true → ∃ b, l.find? q = some b := by
  intro l
  induction l with
  | nil =>
    intro a ha _
    cases ha
  | cons x xs ih =>
    intro a ha hq
    cases hx : q x with
    | true =>
      exact ⟨x, by rw [List.find?_cons_of_pos _ hx]⟩
    | false =>
      rcases List.mem_cons.mp ha with h | h
      · rw [← h] at hx
        rw [hx] at hq
        cases hq
      · rcases ih a h hq with ⟨b, hb⟩
        exact ⟨b, by rw [List.find?_cons_of_neg _ (by simp [hx]), hb]⟩

/-! ## Claim theorems -/

/-- Claim C3: `set_program_status_guarded` updates the program's status iff
`expected_version` equals the stored version, its Boolean result says
whether the write landed (and a failed guard leaves the store untouched),
and across every interleaving of compile finishes with user edits a compile
result carrying a stale version never modifies the store. -/
theorem guarded_write_correct :
    ∀ (st : Store) (pid v : Nat) (s : ProgramStatus) (sch : Option String),
      (∀ p, getProgram st pid = some p →
        (((set_program_status_guarded st pid v s sch).1 = true) ↔ p.version = v))
      ∧ ((set_program_status_guarded st pid v s sch).1 = false →
          (set_program_status_guarded st pid v s sch).2 = st)
      ∧ (∀ (es : List StoreEvent) (p : ProgramRec),
          getProgram (runStore st es) pid = some p → p.version ≠ v →
          stepStore (runStore st es) (StoreEvent.compileResult pid v s sch)
            = runStore st es) := by
  intro st pid v s sch
  refine ⟨?_, ?_, ?_⟩
  · intro p hp
    simp only [set_program_status_guarded, hp]
    by_cases h : p.version = v <;> simp [h]
  · intro h
    cases hg : getProgram st pid with
    | none => simp [set_program_status_guarded, hg]
    | some p =>
      simp only [set_program_status_guarded, hg] at h ⊢
      by_cases hv : p.version = v
      · simp [hv] at h
      · simp [hv]
  · intro es p hp hv
    simp [stepStore, set_program_status_guarded, hp, hv]

/-- Witness for C3 on a concrete store: the guard with the matching
version 2 lands, the guard with stale version 1 reports failure and leaves
the store unchanged, and after a user edit (bumping the version to 3) the
compile result carrying the now-stale version 2 is a no-op. -/
theorem guarded_write_correct_witness :
    (((set_program_status_guarded storeW 1 2 ProgramStatus.success none).1 = true)
      ↔ progW.version = 2)
    ∧ ((set_program_status_guarded storeW 1 1 ProgramStatus.success none).2 = storeW)
    ∧ (stepStore (runStore storeW [StoreEvent.userEdit 1 "create table t2(c2 integer);"])
        (StoreEvent.compileResult 1 2 ProgramStatus.success none)
        = runStore storeW [StoreEvent.userEdit 1 "create table t2(c2 integer);"]) :=
  ⟨(guarded_write_correct storeW 1 2 ProgramStatus.success none).1 progW (by decide),
   (guarded_write_correct storeW 1 1 ProgramStatus.success none).2.1 (by decide),
   (guarded_write_correct storeW 1 2 ProgramStatus.success none).2.2
     [StoreEvent.userEdit 1 "create table t2(c2 integer);"]
     { progW with code := "create table t2(c2 integer);", version := 3,
                  status := ProgramStatus.noStatus, schema := none }
     (by decide) (by decide)⟩

/-- Claim C5: `DELETE /v0/pipelines/{id}` succeeds with 200 iff the
pipeline's `current_status` is `Shutdown`; in any other status the delete
is rejected (400) and the store is unchanged. -/
theorem delete_pipeline_iff_shutdown :
    ∀ (st : Store) (plid : Nat) (p : PipelineRec),
      getPipeline st plid = some p →
      (((delete_pipeline st plid).1 = 200)
        ↔ p.current_status = PipelineStatus.Shutdown)
      ∧ (p.current_status ≠ PipelineStatus.Shutdown →
          (delete_pipeline st plid).1 = 400 ∧ (delete_pipeline st plid).2 = st) := by
  intro st plid p hp
  constructor
  · simp only [delete_pipeline, hp]
    by_cases h : p.current_status = PipelineStatus.Shutdown <;> simp [h]
  · intro h
    simp [delete_pipeline, hp, h]

/-- Witness for C5: on the concrete store, deleting the shut-down pipeline
succeeds and deleting the running pipeline is rejected without change. -/
theorem delete_pipeline_iff_shutdown_witness :
    (((delete_pipeline storeW 10).1 = 200)
      ↔ pipelineShutdownW.current_status = PipelineStatus.Shutdown)
    ∧ ((delete_pipeline storeW 11).1 = 400 ∧ (delete_pipeline storeW 11).2 = storeW) :=
  ⟨(delete_pipeline_iff_shutdown storeW 10 pipelineShutdownW (by decide)).1,
   (delete_pipeline_iff_shutdown storeW 11 pipelineRunningW (by decide)).2 (by decide)⟩

/-- Claim C6: deleting a program referenced by at least one pipeline
returns 400 and modifies nothing: the store is unchanged and a subsequent
GET of the program and of the referencing pipeline both return 200. -/
theorem delete_referenced_program_rejected :
    ∀ (st : Store) (pid : Nat) (p : ProgramRec) (pl : PipelineRec),
      getProgram st pid = some p →
      pl ∈ st.pipelines →
      pl.program_id = some pid →
      (delete_program st pid).1 = 400
      ∧ (delete_program st pid).2 = st
      ∧ getProgramHttpStatus (delete_program st pid).2 pid = 200
      ∧ getPipelineHttpStatus (delete_program st pid).2 pl.pipeline_id = 200 := by
  intro st pid p pl hp hmem href
  have hany : st.pipelines.any (fun q => q.program_id == some pid) = true := by
    rw [List.any_eq_true]
    exact ⟨pl, hmem, by simp [href]⟩
  have hdel : delete_program st pid = (400, st) := by
    simp [delete_program, hp, hany]
  refine ⟨by rw [hdel], by rw [hdel], ?_, ?_⟩
  · rw [hdel]
    simp [getProgramHttpStatus, hp]
  · rw [hdel]
    rcases find?_eq_some_of_mem (fun q => q.pipeline_id == pl.pipeline_id)
      st.pipelines pl hmem (by simp) with ⟨b, hb⟩
    simp [getPipelineHttpStatus, getPipeline, hb]

/-- Witness for C6: the concrete store's program 1 is referenced by
pipeline 10, so deleting it fails with 400 and both rows stay readable. -/
theorem delete_referenced_program_rejected_witness :
    (delete_program storeW 1).1 = 400
    ∧ (delete_program storeW 1).2 = storeW
    ∧ getProgramHttpStatus (delete_program storeW 1).2 1 = 200
    ∧ getPipelineHttpStatus (delete_program storeW 1).2 pipelineShutdownW.pipeline_id = 200 :=
  delete_referenced_program_rejected storeW 1 progW pipelineShutdownW
    (by decide) (by decide) (by decide)

def programReqW : NewProgramRequest :=
  { name := "test", description := "desc", code := "create table t1(c1 integer);" }

def pipelineReqW : NewPipelineRequest :=
  { name := "test", description := "desc", program_id := some 1 }

def connectorReqW : NewConnectorRequest :=
  { name := "test", description := "desc", config := "transport: none" }

/-- Claim C8 (counterexample): a successful `POST /v0/pipelines` — the
pipeline is created and a subsequent GET finds it — answers 200 OK, not
201 Created (integration_test.rs line 783 `assert_eq!(StatusCode::OK, ...)`
and line 1355 `assert_eq!(resp.status(), StatusCode::OK)`), so it is false
that every successful create request returns 201. -/
theorem create_pipeline_success_is_200_not_201 :
    (create_pipeline emptyStore pipelineReqW 10).1 = 200
    ∧ getPipelineHttpStatus (create_pipeline emptyStore pipelineReqW 10).2 10 = 200
    ∧ ¬ (create_pipeline emptyStore pipelineReqW 10).1 = 201 := by
  decide

/-- Claim C8 (amended): a successful `POST /v0/programs` and a successful
`POST /v0/connectors` return 201 Created, while a successful
`POST /v0/pipelines` returns 200 OK. -/
theorem create_success_statuses :
    ∀ (st : Store) (rp : NewProgramRequest) (rpl : NewPipelineRequest)
      (rc : NewConnectorRequest) (i j k : Nat),
      st.programs.any (fun p => p.name == rp.name) = false →
      st.pipelines.any (fun p => p.name == rpl.name) = false →
      st.connectors.any (fun p => p.name == rc.name) = false →
      (create_program st rp i).1 = 201
      ∧ (create_connector st rc k).1 = 201
      ∧ (create_pipeline st rpl j).1 = 200 := by
  intro st rp rpl rc i j k h1 h2 h3
  exact ⟨by simp [create_program, h1], by simp [create_connector, h3],
         by simp [create_pipeline, h2]⟩

/-- Witness for the amended C8 on the empty store. -/
theorem create_success_statuses_witness :
    (create_program emptyStore programReqW 1).1 = 201
    ∧ (create_connector emptyStore connectorReqW 2).1 = 201
    ∧ (create_pipeline emptyStore pipelineReqW 3).1 = 200 :=
  create_success_statuses emptyStore programReqW pipelineReqW connectorReqW 1 3 2
    (by decide) (by decide) (by decide)

/-- Claim C1: an array-mode ingress request containing at least one
malformed record returns 400 with `error_code = ParseErrors` and
`details.num_errors` equal to the number of malformed records, and ingests
nothing: the table contents — hence any observable such as the quantiles
snapshot — are exactly what they were. -/
theorem ingress_array_mode_all_or_nothing :
    ∀ {A : Type} [inst : DecidableEq A] (st : List A) (evs : List (ParsedEvent A)),
      0 < numParseErrors evs →
      (ingressArrayMode st evs).1.status = 400
      ∧ (ingressArrayMode st evs).1.error_code = some "ParseErrors"
      ∧ (ingressArrayMode st evs).1.num_errors = numParseErrors evs
      ∧ (ingressArrayMode st evs).2 = st := by
  intro A inst st evs h
  have hne : numParseErrors evs ≠ 0 := Nat.pos_iff_ne_zero.mp h
  simp [ingressArrayMode, hne]

/-- The parse events of the three-record array posted by `json_ingress`
(integration_test.rs line 898): one well-formed insert and two malformed
records. -/
def badArrayEvents : List (ParsedEvent Nat) :=
  [ParsedEvent.ok (RowUpdate.insertRow 35),
   ParsedEvent.malformed "second record",
   ParsedEvent.malformed "third record"]

/-- Witness for C1: on the three-record array with two malformed records
the response is 400 `ParseErrors` with `num_errors = 2` and the table is
untouched — the well-formed insert of 35 is not ingested either. -/
theorem ingress_array_mode_all_or_nothing_witness :
    0 < numParseErrors badArrayEvents
    ∧ ((ingressArrayMode [20, 30, 50] badArrayEvents).1.status = 400
       ∧ (ingressArrayMode [20, 30, 50] badArrayEvents).1.error_code = some "ParseErrors"
       ∧ (ingressArrayMode [20, 30, 50] badArrayEvents).1.num_errors
           = numParseErrors badArrayEvents
       ∧ (ingressArrayMode [20, 30, 50] badArrayEvents).2 = [20, 30, 50])
    ∧ numParseErrors badArrayEvents = 2 :=
  ⟨by decide,
   ingress_array_mode_all_or_nothing [20, 30, 50] badArrayEvents (by decide),
   by decide⟩

/-- Claim C2: a newline-delimited ingress request (JSON without
`array=true`, or CSV) containing a malformed record also fails with 400
`ParseErrors`, yet every record that parses successfully is still ingested,
so the table's observable state can change although the request failed —
the asymmetry with array mode. -/
theorem ingress_newline_mode_keeps_valid :
    ∀ {A : Type} [inst : DecidableEq A] (st : List A) (evs : List (ParsedEvent A)),
      0 < numParseErrors evs →
      (ingressNewlineMode st evs).1.status = 400
      ∧ (ingressNewlineMode st evs).1.error_code = some "ParseErrors"
      ∧ (ingressNewlineMode st evs).1.num_errors = numParseErrors evs
      ∧ (ingressNewlineMode st evs).2 = applyUpdates st (validUpdates evs) := by
  intro A inst st evs h
  have hne : numParseErrors evs ≠ 0 := Nat.pos_iff_ne_zero.mp h
  simp [ingressNewlineMode, hne]

/-- The parse events of the CSV body posted by `json_ingress`
(integration_test.rs lines 951-958): a valid record, a malformed one, and
another valid record. -/
def badNewlineEvents : List (ParsedEvent Nat) :=
  [ParsedEvent.ok (RowUpdate.insertRow 15),
   ParsedEvent.malformed "not_a_number",
   ParsedEvent.ok (RowUpdate.insertRow 16)]

/-- Witness for C2: the request fails with 400 yet both valid records (15
and 16 — the prefix and even a record after the error) are ingested, so the
state does change. -/
theorem ingress_newline_mode_keeps_valid_witness :
    0 < numParseErrors badNewlineEvents
    ∧ ((ingressNewlineMode [20, 25, 30, 60] badNewlineEvents).1.status = 400
       ∧ (ingressNewlineMode [20, 25, 30, 60] badNewlineEvents).1.error_code
           = some "ParseErrors"
       ∧ (ingressNewlineMode [20, 25, 30, 60] badNewlineEvents).1.num_errors
           = numParseErrors badNewlineEvents
       ∧ (ingressNewlineMode [20, 25, 30, 60] badNewlineEvents).2
           = applyUpdates [20, 25, 30, 60] (validUpdates badNewlineEvents))
    ∧ (ingressNewlineMode [20, 25, 30, 60] badNewlineEvents).2 ≠ [20, 25, 30, 60] :=
  ⟨by decide,
   ingress_newline_mode_keeps_valid [20, 25, 30, 60] badNewlineEvents (by decide),
   by decide⟩

/-- Claim C7: scenario S3 — starting from an empty single-integer-column
table, ingesting the CSV bodies "1\n2\n3\n" and then "4\r\n5\r\n6" both
succeeds, and the quantiles CSV snapshot afterwards is exactly
"1,1\n2,1\n3,1\n4,1\n5,1\n6,1\n": all six records are ingested, including
the Windows-newline ones and the final unterminated one. -/
theorem s3_csv_ingest_quantiles :
    (ingestCsv [] "1\n2\n3\n").1.status = 200
    ∧ (ingestCsv (ingestCsv [] "1\n2\n3\n").2 "4\r\n5\r\n6").1.status = 200
    ∧ quantilesSnapshotCsv (ingestCsv (ingestCsv [] "1\n2\n3\n").2 "4\r\n5\r\n6").2
        = "1,1\n2,1\n3,1\n4,1\n5,1\n6,1\n" := by
  decide

/-- Claim C4: when a polled pipeline self-reports an error, the supervisor
records `current_status = Failed` with the runtime's own error code (in
scenario S4 the code "RuntimeError.WorkerPanic"), and the single poll that
discovers it fits within the failure-detection timeout (poll interval
300 ms ≤ failed_timeout 120 s). -/
theorem supervisor_poll_records_runtime_failure :
    ∀ (p : PipelineRec) (code : String),
      (supervisorObserve p (RuntimeReport.errorReport code)).current_status
          = PipelineStatus.Failed
      ∧ (supervisorObserve p (RuntimeReport.errorReport code)).error
          = some { error_code := code }
      ∧ ((supervisorObserve p
            (RuntimeReport.errorReport "RuntimeError.WorkerPanic")).error.map
              ErrorInfo.error_code = some "RuntimeError.WorkerPanic")
      ∧ supervisorPollIntervalMs ≤ failedTimeoutMsDefault := by
  intro p code
  exact ⟨rfl, rfl, rfl, by decide⟩

def apiCliW : ApiServerConfig :=
  { port := 8089, bind_address := "0.0.0.0",
    api_server_working_directory := "/tmp/manager", auth_provider := "none",
    dev_mode := false, dump_openapi := false, config_file := none }

def dbCliW : DatabaseConfig := { db_connection_string := "postgres-embed" }

def compilerCliW : CompilerConfig :=
  { compiler_working_directory := "/tmp/manager",
    sql_compiler_home := "sql-to-dbsp-compiler", dbsp_override_path := ".",
    debug := false, precompile := false, binary_ref_host := "127.0.0.1",
    binary_ref_port := 9090 }

def runnerCliW : LocalRunnerConfig :=
  { runner_working_directory := "/tmp/manager", pipeline_host := "127.0.0.1" }

def argsW : ArgMatches :=
  { api := apiCliW, database := dbCliW, compiler := compilerCliW, runner := runnerCliW }

def mDumpW : ArgMatches := { argsW with api := { apiCliW with dump_openapi := true } }

def mPreW : ArgMatches :=
  { argsW with compiler := { compilerCliW with precompile := true } }

def noFs : String → Option String := fun _ => none

def noYaml : String → Option ApiServerConfig := fun _ => none

/-- Outcome of `main` when the dump-openapi flag is set. -/
def dumpOutcomeW : MainOutcome :=
  { actions := [ManagerAction.writeOpenapiJson], apiConfigUsed := none,
    databaseConfigUsed := none, compilerConfigUsed := none,
    runnerConfigUsed := none }

/-- Outcome of `main` for `mPreW` (precompile set, no config file). -/
def preOutcomeW : MainOutcome :=
  { actions := [ManagerAction.precompileDependencies],
    apiConfigUsed := some apiCliW, databaseConfigUsed := none,
    compilerConfigUsed := some { compilerCliW with precompile := true },
    runnerConfigUsed := none }

/-- Claim C9: with the dump-openapi flag set, `main` writes the OpenAPI
document and exits — no database connection, no compiler, runner or
API-server task; with the precompile flag set (and dump-openapi clear) it
performs dependency pre-compilation and likewise exits without starting any
of the three long-lived tasks and without touching the database. -/
theorem manager_flags_exit_early :
    ∀ (m : ArgMatches) (rf : String → Option String)
      (pf : String → Option ApiServerConfig),
      (m.api.dump_openapi = true →
        mainManager m rf pf = Except.ok dumpOutcomeW)
      ∧ (m.api.dump_openapi = false → m.compiler.precompile = true →
          ∀ o, mainManager m rf pf = Except.ok o →
            ManagerAction.precompileDependencies ∈ o.actions
            ∧ ManagerAction.connectDb ∉ o.actions
            ∧ ManagerAction.spawnCompilerTask ∉ o.actions
            ∧ ManagerAction.spawnLocalRunnerTask ∉ o.actions
            ∧ ManagerAction.runApiServer ∉ o.actions
            ∧ o.databaseConfigUsed = none) := by
  intro m rf pf
  constructor
  · intro h
    simp [mainManager, h, dumpOutcomeW]
  · intro h1 h2 o
    cases hcf : m.api.config_file with
    | none =>
      intro ho
      have hm : mainManager m rf pf = Except.ok
          { actions := [ManagerAction.precompileDependencies],
            apiConfigUsed := some m.api, databaseConfigUsed := none,
            compilerConfigUsed := some m.compiler, runnerConfigUsed := none } := by
        simp [mainManager, h1, hcf, h2]
      rw [hm] at ho
      injection ho with h
      subst h
      simp
    | some f =>
      cases hrf : rf f with
      | none =>
        intro ho
        have hm : mainManager m rf pf
            = Except.error ("error reading config file " ++ f) := by
          simp [mainManager, h1, hcf, hrf]
        rw [hm] at ho
        simp at ho
      | some yaml =>
        cases hpf : pf yaml with
        | none =>
          intro ho
          have hm : mainManager m rf pf
              = Except.error ("error parsing config file " ++ f) := by
            simp [mainManager, h1, hcf, hrf, hpf]
          rw [hm] at ho
          simp at ho
        | some cfg =>
          intro ho
          have hm : mainManager m rf pf = Except.ok
              { actions := [ManagerAction.readApiConfigFile f,
                  ManagerAction.precompileDependencies],
                apiConfigUsed := some cfg, databaseConfigUsed := none,
                compilerConfigUsed := some m.compiler, runnerConfigUsed := none } := by
            simp [mainManager, h1, hcf, hrf, hpf, h2]
          rw [hm] at ho
          injection ho with h
          subst h
          simp

/-- Witness for C9: the dump-openapi invocation produces only the OpenAPI
write, and the precompile invocation runs pre-compilation with none of the
three long-lived tasks and no database use. -/
theorem manager_flags_exit_early_witness :
    mainManager mDumpW noFs noYaml = Except.ok dumpOutcomeW
    ∧ (ManagerAction.precompileDependencies ∈ preOutcomeW.actions
       ∧ ManagerAction.connectDb ∉ preOutcomeW.actions
       ∧ ManagerAction.spawnCompilerTask ∉ preOutcomeW.actions
       ∧ ManagerAction.spawnLocalRunnerTask ∉ preOutcomeW.actions
       ∧ ManagerAction.runApiServer ∉ preOutcomeW.actions
       ∧ preOutcomeW.databaseConfigUsed = none) :=
  ⟨(manager_flags_exit_early mDumpW noFs noYaml).1 rfl,
   (manager_flags_exit_early mPreW noFs noYaml).2 rfl rfl preOutcomeW rfl⟩

/-- The api-server configuration carried by the config file of the C10
witness: it differs from the command-line one. -/
def fileCfgW : ApiServerConfig :=
  { port := 9999, bind_address := "127.0.0.1",
    api_server_working_directory := "/var/feldera", auth_provider := "none",
    dev_mode := true, dump_openapi := false, config_file := none }

def mFileW : ArgMatches :=
  { argsW with api := { apiCliW with config_file := some "manager.yaml" } }

def readFileW : String → Option String :=
  fun s => if s = "manager.yaml" then some "yaml-body" else none

def parseYamlW : String → Option ApiServerConfig :=
  fun s => if s = "yaml-body" then some fileCfgW else none

/-- Claim C10: when a config file is given (and dump-openapi is clear), the
api-server configuration handed to every downstream component is exactly
the one parsed from the file — the command-line api-server flags are
discarded wholesale — while the database, compiler and runner
configurations still come from the command-line matches; and the
dump-openapi flag is acted on from the command line before the file is ever
read. -/
theorem manager_config_file_replaces_api_config :
    ∀ (m : ArgMatches) (f yaml : String) (cfg : ApiServerConfig)
      (rf : String → Option String) (pf : String → Option ApiServerConfig),
      (m.api.dump_openapi = false → m.api.config_file = some f →
        rf f = some yaml → pf yaml = some cfg → m.compiler.precompile = false →
        mainManager m rf pf = Except.ok
          { actions := [ManagerAction.readApiConfigFile f,
              ManagerAction.createListener, ManagerAction.connectDb,
              ManagerAction.spawnCompilerTask, ManagerAction.spawnLocalRunnerTask,
              ManagerAction.runApiServer]
            apiConfigUsed := some cfg
            databaseConfigUsed := some m.database
            compilerConfigUsed := some m.compiler
            runnerConfigUsed := some m.runner })
      ∧ (m.api.dump_openapi = true →
          mainManager m rf pf = Except.ok dumpOutcomeW
          ∧ ∀ o, mainManager m rf pf = Except.ok o →
              ManagerAction.readApiConfigFile f ∉ o.actions) := by
  intro m f yaml cfg rf pf
  constructor
  · intro h1 h2 h3 h4 h5
    simp [mainManager, h1, h2, h3, h4, h5]
  · intro h
    have hm : mainManager m rf pf = Except.ok dumpOutcomeW := by
      simp [mainManager, h, dumpOutcomeW]
    refine ⟨hm, ?_⟩
    intro o ho
    rw [hm] at ho
    injection ho with h2
    subst h2
    simp [dumpOutcomeW]

/-- Witness for C10: with a config file present, `main` runs the full
service with the file's api-server configuration (which differs from the
command-line one) and the command-line database, compiler and runner
configurations; and with dump-openapi set the file is never read. -/
theorem manager_config_file_replaces_api_config_witness :
    (mainManager mFileW readFileW parseYamlW = Except.ok
      { actions := [ManagerAction.readApiConfigFile "manager.yaml",
          ManagerAction.createListener, ManagerAction.connectDb,
          ManagerAction.spawnCompilerTask, ManagerAction.spawnLocalRunnerTask,
          ManagerAction.runApiServer]
        apiConfigUsed := some fileCfgW
        databaseConfigUsed := some dbCliW
        compilerConfigUsed := some compilerCliW
        runnerConfigUsed := some runnerCliW })
    ∧ fileCfgW ≠ mFileW.api
    ∧ mainManager mDumpW readFileW parseYamlW = Except.ok dumpOutcomeW
    ∧ ManagerAction.readApiConfigFile "manager.yaml" ∉ dumpOutcomeW.actions :=
  ⟨(manager_config_file_replaces_api_config mFileW "manager.yaml" "yaml-body"
      fileCfgW readFileW parseYamlW).1 rfl rfl (by decide) (by decide) rfl,
   by decide,
   ((manager_config_file_replaces_api_config mDumpW "manager.yaml" "yaml-body"
      fileCfgW readFileW parseYamlW).2 rfl).1,
   ((manager_config_file_replaces_api_config mDumpW "manager.yaml" "yaml-body"
      fileCfgW readFileW parseYamlW).2 rfl).2 dumpOutcomeW
     (((manager_config_file_replaces_api_config mDumpW "manager.yaml" "yaml-body"
        fileCfgW readFileW parseYamlW).2 rfl).1)⟩
